import Mathlib

/-!
Verification development for the LandmarkNavigator backend core
(src/server/storage.ts, src/server/routes.ts, src/shared/schema.ts).

The TypeScript code is shallowly embedded: JavaScript numbers are modelled
as rationals (ℚ), JS `Map` objects as lists with key-respecting update and
delete operations, network calls as explicit response parameters, and the
Express handlers as pure state-passing functions on the storage state.
-/

/-! ## Models of the JavaScript built-ins used by the source -/

/-- Models ECMAScript `String.prototype.toLowerCase` for ASCII strings
(`Char.toLower` lowers exactly the ASCII range, which covers every
string the source compares). -/
def jsToLowerCase (s : String) : String :=
  String.mk (s.data.map Char.toLower)

/-- Whitespace characters as removed by ECMAScript
`String.prototype.trim` (restricted to the forms that occur in query
strings). -/
def isJsWhitespaceChar (c : Char) : Bool :=
  (c == ' ') || (c == '\t') || (c == '\n') || (c == '\r')

/-- Models ECMAScript `String.prototype.trim`: drop leading and trailing
whitespace. -/
def jsTrim (s : String) : String :=
  String.mk
    (((s.data.dropWhile isJsWhitespaceChar).reverse.dropWhile
      isJsWhitespaceChar).reverse)

/-- Decimal digit character. -/
def digitChar (n : Nat) : Char := Char.ofNat (48 + n % 10)

/-- Fractional digits of `r / d` (numerator remainder over denominator),
with fuel bounding the number of emitted digits. -/
def fracDigits : Nat → Nat → Nat → List Char
  | 0, _, _ => []
  | _ + 1, 0, _ => []
  | fuel + 1, r, d => digitChar (r * 10 / d) :: fracDigits fuel (r * 10 % d) d

/-- Models ECMAScript number-to-string conversion (as used by template
literals such as the cache keys in src/server/routes.ts) for rationals with
a finite decimal expansion, which covers every numeric literal the source
interpolates into a key. -/
def jsNumToString (q : Rat) : String :=
  let sign := if q < 0 then "-" else ""
  let n := q.num.natAbs
  let d := q.den
  let ip := n / d
  let r := n % d
  if r = 0 then sign ++ toString ip
  else sign ++ toString ip ++ "." ++ String.mk (fracDigits 30 r d)

example : jsNumToString (mkRat 1094 100) = "10.94" := by decide
example : jsNumToString (mkRat 10682 100) = "106.82" := by decide

/-! ## Data model (src/shared/schema.ts)

Coordinates are `[lat, lng]` pairs; the `jsonb` payloads that the source
stores in the cache are modelled by the tagged union `CacheData` over the
result shapes that actually occur. -/

/-- Insert shape of a landmark: all columns of the `landmarks` table except
the serial `id` (src/shared/schema.ts, `insertLandmarkSchema`). -/
structure InsertLandmark where
  title : String
  pageId : Int
  extract : String
  thumbnail : Option String
  coordinates : Rat × Rat
  distance : Option String
  url : String
deriving DecidableEq, Repr

/-- A stored landmark: the insert fields plus the assigned id
(src/server/storage.ts builds it as the spread of the insert record with
the fresh id). -/
structure Landmark extends InsertLandmark where
  id : Nat
deriving DecidableEq, Repr

/-- Insert shape of a road (src/shared/schema.ts, `insertRoadSchema`). -/
structure InsertRoad where
  name : Option String
  coordinates : List (Rat × Rat)
  area : String
deriving DecidableEq, Repr

/-- A stored road: insert fields plus assigned id. -/
structure Road extends InsertRoad where
  id : Nat
deriving DecidableEq, Repr

/-- Search result shape produced by `searchWikipedia`
(src/server/routes.ts). -/
structure SearchResult where
  title : String
  pageId : Int
  extract : String
  snippet : String
  thumbnail : String
  url : String
deriving DecidableEq, Repr

/-- The `jsonb` payload a cache entry carries: one of the result shapes the
orchestrator actually caches (landmark lists as stored or as fetched, road
lists as stored or as fetched, search result lists). -/
inductive CacheData where
  | landmarkList : List Landmark → CacheData
  | insertLandmarkList : List InsertLandmark → CacheData
  | roadList : List Road → CacheData
  | insertRoadList : List InsertRoad → CacheData
  | searchList : List SearchResult → CacheData
deriving DecidableEq, Repr

/-- Insert shape of a cache entry (src/shared/schema.ts,
`insertCacheSchema`): key, payload and absolute Unix expiry. -/
structure InsertCache where
  key : String
  data : CacheData
  expiresAt : Int
deriving DecidableEq, Repr

/-- A stored cache entry: insert fields plus assigned numeric id. -/
structure Cache extends InsertCache where
  id : Nat
deriving DecidableEq, Repr

/-! ## JS Map model

JS `Map` objects keyed by landmark id, road id and cache key are modelled
as lists: `set` replaces an existing entry in place (insertion order kept)
or appends, `get` finds the first matching entry, `delete` removes the
entries with the key (a representable `Map` state holds at most one). -/

/-- `Map.set` for the landmarks map keyed by `id`. -/
def mapSetLandmark (l : Landmark) : List Landmark → List Landmark
  | [] => [l]
  | x :: xs => if x.id = l.id then l :: xs else x :: mapSetLandmark l xs

/-- `Map.set` for the roads map keyed by `id`. -/
def mapSetRoad (r : Road) : List Road → List Road
  | [] => [r]
  | x :: xs => if x.id = r.id then r :: xs else x :: mapSetRoad r xs

/-- `Map.set` for the cache map keyed by `key`. -/
def mapSetCache (c : Cache) : List Cache → List Cache
  | [] => [c]
  | x :: xs => if x.key = c.key then c :: xs else x :: mapSetCache c xs

/-- `Map.get` for the cache map. -/
def cacheLookup (k : String) : List Cache → Option Cache
  | [] => none
  | x :: xs => if x.key = k then some x else cacheLookup k xs

/-- `Map.get` for the landmarks map. -/
def landmarkLookup (i : Nat) : List Landmark → Option Landmark
  | [] => none
  | x :: xs => if x.id = i then some x else landmarkLookup i xs

/-! ## Entity store state (src/server/storage.ts, class MemStorage) -/

/-- The in-memory storage state: the three maps and the three id
counters. -/
structure MemStorage where
  landmarks : List Landmark
  roads : List Road
  cache : List Cache
  landmarksCurrentId : Nat
  roadsCurrentId : Nat
  cacheCurrentId : Nat
deriving DecidableEq, Repr

/-- The `MemStorage` constructor: empty maps, every counter at 1. -/
def initialStorage : MemStorage :=
  { landmarks := [], roads := [], cache := [],
    landmarksCurrentId := 1, roadsCurrentId := 1, cacheCurrentId := 1 }

/-- `MemStorage.getLandmarks`. -/
def getLandmarks (s : MemStorage) : List Landmark := s.landmarks

/-- `MemStorage.getLandmarksByBounds`: keep the landmarks whose
coordinates lie inside the south-west / north-east box, all four
comparisons inclusive. -/
def getLandmarksByBounds (bounds : (Rat × Rat) × (Rat × Rat))
    (s : MemStorage) : List Landmark :=
  let swLat := bounds.1.1
  let swLng := bounds.1.2
  let neLat := bounds.2.1
  let neLng := bounds.2.2
  s.landmarks.filter (fun l =>
    decide (swLat ≤ l.coordinates.1 ∧ l.coordinates.1 ≤ neLat ∧
            swLng ≤ l.coordinates.2 ∧ l.coordinates.2 ≤ neLng))

/-- `MemStorage.getLandmarkById`. -/
def getLandmarkById (i : Nat) (s : MemStorage) : Option Landmark :=
  landmarkLookup i s.landmarks

/-- `MemStorage.addLandmark`: assign the current landmark id, store the
insert record extended with it, bump the counter, return the stored
record. -/
def addLandmark (ins : InsertLandmark) (s : MemStorage) :
    Landmark × MemStorage :=
  let id := s.landmarksCurrentId
  let landmark : Landmark := ⟨ins, id⟩
  (landmark,
    { s with landmarks := mapSetLandmark landmark s.landmarks,
             landmarksCurrentId := id + 1 })

/-- `MemStorage.getRoads`. -/
def getRoads (s : MemStorage) : List Road := s.roads

/-- `MemStorage.getRoadsByArea`: case-insensitive exact match on the
`area` field. -/
def getRoadsByArea (area : String) (s : MemStorage) : List Road :=
  s.roads.filter (fun r => jsToLowerCase r.area == jsToLowerCase area)

/-- `MemStorage.addRoad`: mirror of `addLandmark` on the road map and
counter. -/
def addRoad (ins : InsertRoad) (s : MemStorage) : Road × MemStorage :=
  let id := s.roadsCurrentId
  let road : Road := ⟨ins, id⟩
  (road,
    { s with roads := mapSetRoad road s.roads, roadsCurrentId := id + 1 })

/-- `MemStorage.invalidateCache`: `Map.delete` on the cache key. -/
def invalidateCache (k : String) (s : MemStorage) : MemStorage :=
  { s with cache := s.cache.filter (fun c => !(c.key == k)) }

/-- `MemStorage.getCache` at current time `now` (the source reads
`Math.floor(Date.now() / 1000)`): a missing key is a miss; an entry with
`expiresAt < now` is deleted and reported as a miss; otherwise the entry
is returned. -/
def getCache (k : String) (now : Int) (s : MemStorage) :
    Option Cache × MemStorage :=
  match cacheLookup k s.cache with
  | none => (none, s)
  | some cacheItem =>
    if cacheItem.expiresAt < now then (none, invalidateCache k s)
    else (some cacheItem, s)

/-- `MemStorage.setCache`: assign the current cache id, `Map.set` the
entry under its key, bump the counter, return the stored entry. -/
def setCache (ins : InsertCache) (s : MemStorage) : Cache × MemStorage :=
  let id := s.cacheCurrentId
  let cacheItem : Cache := ⟨ins, id⟩
  (cacheItem,
    { s with cache := mapSetCache cacheItem s.cache,
             cacheCurrentId := id + 1 })

/-- `MemStorage.cleanExpiredCache` at time `now`: delete every entry with
`expiresAt < now`. -/
def cleanExpiredCache (now : Int) (s : MemStorage) : MemStorage :=
  { s with cache := s.cache.filter (fun c => !decide (c.expiresAt < now)) }

/-! ## Wikipedia fetch helpers (src/server/routes.ts)

The HTTP calls are abstracted to their parsed responses: `Except.error`
models a thrown or network error reaching the surrounding catch block, and
an `Option` models the presence of the expected response shape. -/

/-- The fields of a Wikipedia page object that `fetchWikipediaDetails`
reads (`page.extract`, `page.thumbnail.source`). -/
structure RawPage where
  extract : Option String
  thumbnail : Option String
deriving Repr

/-- The record `fetchWikipediaDetails` returns. -/
structure PageDetails where
  extract : String
  thumbnail : String
deriving DecidableEq, Repr

/-- `fetchWikipediaDetails`: on a thrown error or a missing page object the
catch path yields empty strings; otherwise extract defaults to the empty
string and thumbnail to the empty string when absent. -/
def fetchWikipediaDetails (resp : Except Unit (Option RawPage)) :
    PageDetails :=
  match resp with
  | .error _ => { extract := "", thumbnail := "" }
  | .ok none => { extract := "", thumbnail := "" }
  | .ok (some page) =>
    { extract := page.extract.getD "", thumbnail := page.thumbnail.getD "" }

/-- Models the stripping of span tags, as performed on search snippets by
the global regex replace in `searchWikipedia`: a tag is a literal `<`, an
optional `/`, the word span, any characters other than `>`, then `>`. -/
def spanTagEnd : List Char → Option (List Char)
  | [] => none
  | c :: rest => if c = '>' then some rest else spanTagEnd rest

/-- Match one span tag right after an opening `<`; return the remainder of
the text when the tag matches. -/
def matchSpanTag (cs : List Char) : Option (List Char) :=
  let cs' := match cs with
    | '/' :: rest => rest
    | _ => cs
  match cs' with
  | 's' :: 'p' :: 'a' :: 'n' :: rest => spanTagEnd rest
  | _ => none

/-- Left-to-right scan deleting span tags, with fuel bounding the number
of steps. -/
def stripSpanAux : Nat → List Char → List Char
  | 0, cs => cs
  | _ + 1, [] => []
  | fuel + 1, c :: cs =>
    if c = '<' then
      match matchSpanTag cs with
      | some rest => stripSpanAux fuel rest
      | none => c :: stripSpanAux fuel cs
    else c :: stripSpanAux fuel cs

/-- The snippet cleanup `item.snippet.replace` with the span-tag regex. -/
def stripSpanTags (s : String) : String :=
  String.mk (stripSpanAux s.data.length s.data)

/-- Characters ECMAScript `encodeURIComponent` leaves unescaped. -/
def isUnreservedURIChar (c : Char) : Bool :=
  let n := c.toNat
  decide ((65 ≤ n ∧ n ≤ 90) ∨ (97 ≤ n ∧ n ≤ 122) ∨ (48 ≤ n ∧ n ≤ 57) ∨
    n ∈ [45, 95, 46, 33, 126, 42, 39, 40, 41])

/-- UTF-8 bytes of a character. -/
def utf8Bytes (c : Char) : List Nat :=
  let u := c.toNat
  if u < 128 then [u]
  else if u < 2048 then [192 + u / 64, 128 + u % 64]
  else if u < 65536 then [224 + u / 4096, 128 + u / 64 % 64, 128 + u % 64]
  else [240 + u / 262144, 128 + u / 4096 % 64, 128 + u / 64 % 64,
        128 + u % 64]

/-- Upper-case hexadecimal digit. -/
def hexDigitChar (n : Nat) : Char :=
  if n < 10 then Char.ofNat (48 + n) else Char.ofNat (55 + n % 16)

/-- Percent-encoding of one byte. -/
def percentEncodeByte (b : Nat) : List Char :=
  [Char.ofNat 37, hexDigitChar (b / 16), hexDigitChar (b % 16)]

/-- Models ECMAScript `encodeURIComponent`. -/
def encodeURIComponent (s : String) : String :=
  String.mk (s.data.foldr
    (fun c acc =>
      (if isUnreservedURIChar c then [c]
       else (utf8Bytes c).flatMap percentEncodeByte) ++ acc) [])

/-- The article URL both fetch helpers construct: spaces in the title
become underscores, then the title is URI-encoded. -/
def wikipediaPageUrl (title : String) : String :=
  "https://en.wikipedia.org/wiki/" ++
    encodeURIComponent (title.replace " " "_")

/-- Models `Number.prototype.toFixed(1)`: round half away from zero to one
decimal digit, as used for the landmark distance text. -/
def toFixed1 (q : Rat) : String :=
  let scaled : Int :=
    if q < 0 then -(Rat.floor (-q * 10 + 1 / 2))
    else Rat.floor (q * 10 + 1 / 2)
  let sign := if scaled < 0 then "-" else ""
  let n := scaled.natAbs
  sign ++ toString (n / 10) ++ "." ++ toString (n % 10)

/-- One raw item of the Wikipedia search response, together with the
outcome of the follow-up details request for its page id. -/
structure RawSearchItem where
  title : String
  pageid : Int
  snippet : String
  detailsResp : Except Unit (Option RawPage)

/-- The per-item mapping inside `searchWikipedia`. -/
def searchItemToResult (item : RawSearchItem) : SearchResult :=
  let details := fetchWikipediaDetails item.detailsResp
  { title := item.title
    pageId := item.pageid
    extract :=
      if details.extract = "" then "No description available"
      else details.extract
    snippet := stripSpanTags item.snippet
    thumbnail := details.thumbnail
    url := wikipediaPageUrl item.title }

/-- `searchWikipedia`: a thrown error is caught and yields `[]`; a
response without `query.search` yields `[]`; otherwise the first five
items are mapped to search results. -/
def searchWikipedia (resp : Except Unit (Option (List RawSearchItem))) :
    List SearchResult :=
  match resp with
  | .error _ => []
  | .ok none => []
  | .ok (some items) => (items.take 5).map searchItemToResult

/-- One raw item of the Wikipedia geosearch response, together with the
outcome of the follow-up details request for its page id. -/
structure RawGeoItem where
  title : String
  pageid : Int
  lat : Rat
  lon : Rat
  dist : Rat
  detailsResp : Except Unit (Option RawPage)

/-- The per-item mapping inside `fetchWikipediaLandmarks`. -/
def geoItemToLandmark (item : RawGeoItem) : InsertLandmark :=
  let details := fetchWikipediaDetails item.detailsResp
  { title := item.title
    pageId := item.pageid
    extract :=
      if details.extract = "" then "No description available"
      else details.extract
    thumbnail := some details.thumbnail
    coordinates := (item.lat, item.lon)
    distance := some (toFixed1 (item.dist / 1000) ++ " km away")
    url := wikipediaPageUrl item.title }

/-- `fetchWikipediaLandmarks`: a thrown error is caught and yields `[]`; a
response without `query.geosearch` yields `[]`; otherwise every item is
mapped to a landmark insert record. -/
def fetchWikipediaLandmarks
    (resp : Except Unit (Option (List RawGeoItem))) : List InsertLandmark :=
  match resp with
  | .error _ => []
  | .ok none => []
  | .ok (some items) => items.map geoItemToLandmark

/-! ## Route handlers (src/server/routes.ts, registerRoutes)

Each handler is embedded as a pure function of the parsed query
parameters, the current Unix time, the outcome of the external fetch and
the storage state. The `failAt` parameter models an unexpected exception
thrown at a given point of the handler body; the surrounding try/catch
turns it into the generic 500 response. -/

/-- The response a handler ends with: a JSON payload, a 400 validation
rejection, or the generic 500 failure with its message. -/
inductive HandlerResp where
  | ok (data : CacheData)
  | badRequest (message : String)
  | serverError (message : String)
deriving DecidableEq, Repr

/-- A point of a handler at which an unexpected exception may be thrown:
during the external fetch, while storing the record at a given index of
the fetched list, or at the cache write. -/
inductive FailPoint where
  | fetch
  | add (i : Nat)
  | cacheWrite
deriving DecidableEq, Repr

/-- The bounds cache key of the landmarks handler, built by the template
literal over the four parsed coordinates. -/
def landmarksKey (south west north east : Rat) : String :=
  "landmarks:" ++ jsNumToString south ++ "," ++ jsNumToString west ++ ","
    ++ jsNumToString north ++ "," ++ jsNumToString east

/-- The storage loop of the landmarks handler: one `addLandmark` per
fetched record, in order. -/
def addAllLandmarks (ls : List InsertLandmark) (s : MemStorage) :
    MemStorage :=
  ls.foldl (fun st l => (addLandmark l st).2) s

/-- The storage loop of the roads handler: one `addRoad` per fetched
record, in order. -/
def addAllRoads (rs : List InsertRoad) (s : MemStorage) : MemStorage :=
  rs.foldl (fun st r => (addRoad r st).2) s

/-- Tail of the landmarks handler on the fetch path: store every fetched
record, cache the fetched list for one hour, respond with it. -/
def landmarksFetchFinish (cacheKey : String) (now : Int)
    (fetched : List InsertLandmark) (s1 : MemStorage) :
    HandlerResp × MemStorage :=
  let s2 := addAllLandmarks fetched s1
  let s3 := (setCache
    { key := cacheKey, data := .insertLandmarkList fetched,
      expiresAt := now + 3600 } s2).2
  (.ok (.insertLandmarkList fetched), s3)

/-- The `GET api/landmarks` handler: cache lookup, then store lookup by
bounds, then the Wikipedia fetch (whose outcome is the `fetched`
parameter), storing and caching as in the source; `failAt` injects an
exception that the catch block answers with the generic failure. -/
def landmarksHandler (south west north east : Rat) (now : Int)
    (fetched : List InsertLandmark) (failAt : Option FailPoint)
    (s : MemStorage) : HandlerResp × MemStorage :=
  let cacheKey := landmarksKey south west north east
  match getCache cacheKey now s with
  | (some cached, s1) => (.ok cached.data, s1)
  | (none, s1) =>
    let stored := getLandmarksByBounds ((south, west), (north, east)) s1
    if stored.isEmpty then
      match failAt with
      | some .fetch => (.serverError "Failed to fetch landmarks", s1)
      | some (.add i) =>
        if i < fetched.length then
          (.serverError "Failed to fetch landmarks",
            addAllLandmarks (fetched.take i) s1)
        else landmarksFetchFinish cacheKey now fetched s1
      | some .cacheWrite =>
        (.serverError "Failed to fetch landmarks",
          addAllLandmarks fetched s1)
      | none => landmarksFetchFinish cacheKey now fetched s1
    else
      match failAt with
      | some .cacheWrite => (.serverError "Failed to fetch landmarks", s1)
      | _ =>
        let s2 := (setCache
          { key := cacheKey, data := .landmarkList stored,
            expiresAt := now + 3600 } s1).2
        (.ok (.landmarkList stored), s2)

/-- The search cache key of the `GET api/search` handler. -/
def searchCacheKey (query : String) : String :=
  "search:" ++ jsToLowerCase query

/-- `fetchBuuLongRoads`: the predefined road data for the Buu Long area
returned by the helper in src/server/routes.ts; the helper performs no
external call. -/
def fetchBuuLongRoads : List InsertRoad :=
[
  { name := some "Đường Đồng Khởi (Main East-West)",
    coordinates := [(10.957, 106.830), (10.957, 106.835), (10.957, 106.840), (10.957, 106.845), (10.957, 106.850), (10.957, 106.855), (10.957, 106.860), (10.957, 106.865), (10.957, 106.870)],
    area := "buu long" },
  { name := some "Đường Huỳnh Văn Nghệ (East-West)",
    coordinates := [(10.954, 106.835), (10.954, 106.840), (10.954, 106.845), (10.954, 106.850), (10.954, 106.855), (10.954, 106.860), (10.954, 106.865), (10.954, 106.870)],
    area := "buu long" },
  { name := some "Đường Phan Đình Phùng (East-West)",
    coordinates := [(10.960, 106.835), (10.960, 106.840), (10.960, 106.845), (10.960, 106.850), (10.960, 106.855), (10.960, 106.860), (10.960, 106.865), (10.960, 106.870)],
    area := "buu long" },
  { name := some "Đường Phạm Văn Thuận (North-South)",
    coordinates := [(10.972, 106.860), (10.970, 106.860), (10.968, 106.860), (10.966, 106.860), (10.964, 106.860), (10.962, 106.860), (10.960, 106.860), (10.958, 106.860), (10.956, 106.860), (10.954, 106.860), (10.952, 106.860), (10.950, 106.860), (10.948, 106.860)],
    area := "buu long" },
  { name := some "Đường Võ Thị Sáu (North-South)",
    coordinates := [(10.972, 106.850), (10.970, 106.850), (10.968, 106.850), (10.966, 106.850), (10.964, 106.850), (10.962, 106.850), (10.960, 106.850), (10.958, 106.850), (10.956, 106.850), (10.954, 106.850), (10.952, 106.850), (10.950, 106.850), (10.948, 106.850)],
    area := "buu long" },
  { name := some "Đường Nguyễn Ái Quốc (North-South)",
    coordinates := [(10.972, 106.840), (10.970, 106.840), (10.968, 106.840), (10.966, 106.840), (10.964, 106.840), (10.962, 106.840), (10.960, 106.840), (10.958, 106.840), (10.956, 106.840), (10.954, 106.840), (10.952, 106.840), (10.950, 106.840), (10.948, 106.840)],
    area := "buu long" },
  { name := some "Đường Hoàng Diệu (North-South)",
    coordinates := [(10.972, 106.865), (10.970, 106.865), (10.968, 106.865), (10.966, 106.865), (10.964, 106.865), (10.962, 106.865), (10.960, 106.865), (10.958, 106.865), (10.956, 106.865), (10.954, 106.865), (10.952, 106.865), (10.950, 106.865), (10.948, 106.865)],
    area := "buu long" },
  { name := some "Đường Bửu Long (Major Diagonal)",
    coordinates := [(10.976, 106.830), (10.974, 106.835), (10.972, 106.840), (10.970, 106.845), (10.968, 106.850), (10.966, 106.855), (10.964, 106.860), (10.962, 106.865), (10.960, 106.870), (10.958, 106.875)],
    area := "buu long" },
  { name := some "Đường Cách Mạng Tháng Tám (Diagonal)",
    coordinates := [(10.946, 106.845), (10.948, 106.850), (10.950, 106.855), (10.952, 106.860), (10.954, 106.865), (10.956, 106.870), (10.958, 106.875)],
    area := "buu long" },
  { name := some "Đường Nội Bộ ĐH Đồng Nai (Campus - East)",
    coordinates := [(10.956, 106.855), (10.957, 106.855), (10.958, 106.855), (10.959, 106.855), (10.960, 106.855)],
    area := "buu long" },
  { name := some "Đường Nội Bộ ĐH Đồng Nai (Campus - West)",
    coordinates := [(10.956, 106.845), (10.957, 106.845), (10.958, 106.845), (10.959, 106.845), (10.960, 106.845)],
    area := "buu long" },
  { name := some "Hẻm 7 Đồng Khởi (Connection)",
    coordinates := [(10.957, 106.845), (10.956, 106.846), (10.955, 106.847), (10.954, 106.848), (10.953, 106.849), (10.952, 106.850)],
    area := "buu long" },
  { name := some "Hẻm 10 Đồng Khởi (Connection)",
    coordinates := [(10.957, 106.855), (10.956, 106.856), (10.955, 106.857), (10.954, 106.858), (10.953, 106.859), (10.952, 106.860)],
    area := "buu long" },
  { name := some "Đường Lê Quý Đôn (East-West)",
    coordinates := [(10.962, 106.830), (10.962, 106.835), (10.962, 106.840), (10.962, 106.845), (10.962, 106.850), (10.962, 106.855), (10.962, 106.860)],
    area := "buu long" },
  { name := some "Đường Trần Phú (East-West)",
    coordinates := [(10.966, 106.830), (10.966, 106.835), (10.966, 106.840), (10.966, 106.845), (10.966, 106.850), (10.966, 106.855), (10.966, 106.860)],
    area := "buu long" },
  { name := some "Đường Phan Chu Trinh (North-South)",
    coordinates := [(10.972, 106.835), (10.970, 106.835), (10.968, 106.835), (10.966, 106.835), (10.964, 106.835), (10.962, 106.835), (10.960, 106.835), (10.958, 106.835), (10.956, 106.835), (10.954, 106.835)],
    area := "buu long" }
]
/-- Tail of the roads handler on the fetch path: store every fixture
road, cache the fixture list for one hour, respond with it. -/
def roadsFetchFinish (cacheKey : String) (now : Int) (s1 : MemStorage) :
    HandlerResp × MemStorage :=
  let s2 := addAllRoads fetchBuuLongRoads s1
  let s3 := (setCache
    { key := cacheKey, data := .insertRoadList fetchBuuLongRoads,
      expiresAt := now + 3600 } s2).2
  (.ok (.insertRoadList fetchBuuLongRoads), s3)

/-- The `GET api/roads/buu-long` handler: cache lookup, then store lookup
by area, then `fetchBuuLongRoads`, storing and caching as in the source;
`failAt` injects an exception that the catch block answers with the
generic failure. -/
def roadsHandler (now : Int) (failAt : Option FailPoint)
    (s : MemStorage) : HandlerResp × MemStorage :=
  let cacheKey := "roads:buu-long"
  match getCache cacheKey now s with
  | (some cached, s1) => (.ok cached.data, s1)
  | (none, s1) =>
    let roads := getRoadsByArea "buu long" s1
    if roads.isEmpty then
      match failAt with
      | some .fetch => (.serverError "Failed to fetch Buu Long roads", s1)
      | some (.add i) =>
        if i < fetchBuuLongRoads.length then
          (.serverError "Failed to fetch Buu Long roads",
            addAllRoads (fetchBuuLongRoads.take i) s1)
        else roadsFetchFinish cacheKey now s1
      | some .cacheWrite =>
        (.serverError "Failed to fetch Buu Long roads",
          addAllRoads fetchBuuLongRoads s1)
      | none => roadsFetchFinish cacheKey now s1
    else
      match failAt with
      | some .cacheWrite =>
        (.serverError "Failed to fetch Buu Long roads", s1)
      | _ =>
        let s2 := (setCache
          { key := cacheKey, data := .roadList roads,
            expiresAt := now + 3600 } s1).2
        (.ok (.roadList roads), s2)

/-- The `GET api/search` handler: reject an all-whitespace query, then
cache lookup, then the Wikipedia search (on the abstracted response),
caching as in the source; `failAt` injects an exception that the catch
block answers with the generic failure (the handler has no store loop, so
an `add` fail point never fires). -/
def searchHandler (query : String) (now : Int)
    (resp : Except Unit (Option (List RawSearchItem)))
    (failAt : Option FailPoint) (s : MemStorage) :
    HandlerResp × MemStorage :=
  if jsTrim query = "" then (.badRequest "Search query is required", s)
  else
    let cacheKey := searchCacheKey query
    match getCache cacheKey now s with
    | (some cached, s1) => (.ok cached.data, s1)
    | (none, s1) =>
      match failAt with
      | some .fetch => (.serverError "Failed to search landmarks", s1)
      | some .cacheWrite =>
        (.serverError "Failed to search landmarks", s1)
      | _ =>
        let searchResults := searchWikipedia resp
        let s2 := (setCache
          { key := cacheKey, data := .searchList searchResults,
            expiresAt := now + 3600 } s1).2
        (.ok (.searchList searchResults), s2)

/-- Modelled from the spec: the road-lookup fallback chain the
specification describes (primary structured-geodata provider, then the
secondary alternative geodata provider, then the local fixture dataset,
each non-empty earlier stage short-circuiting the later ones). Stated for
comparison with the road fetch the code actually performs. -/
def roadFetchChainSpec (primary secondary : List InsertRoad) :
    List InsertRoad :=
  if primary ≠ [] then primary
  else if secondary ≠ [] then secondary
  else fetchBuuLongRoads

/-! ## Storage operation traces (for the id-allocation invariant) -/

/-- One mutating or reading storage call, as dispatched by the route
layer. -/
inductive StoreOp where
  | addLandmark (ins : InsertLandmark)
  | addRoad (ins : InsertRoad)
  | setCache (ins : InsertCache)
  | invalidateCache (key : String)
  | getCache (key : String) (now : Int)
  | cleanExpiredCache (now : Int)

/-- The state after one storage call. -/
def applyOp : StoreOp → MemStorage → MemStorage
  | .addLandmark ins, s => (addLandmark ins s).2
  | .addRoad ins, s => (addRoad ins s).2
  | .setCache ins, s => (setCache ins s).2
  | .invalidateCache k, s => invalidateCache k s
  | .getCache k now, s => (getCache k now s).2
  | .cleanExpiredCache now, s => cleanExpiredCache now s

/-- The landmark ids assigned over a sequence of storage calls, in
order. -/
def landmarkIdTrace : List StoreOp → MemStorage → List Nat
  | [], _ => []
  | .addLandmark ins :: ops, s =>
    (addLandmark ins s).1.id ::
      landmarkIdTrace ops (applyOp (.addLandmark ins) s)
  | op :: ops, s => landmarkIdTrace ops (applyOp op s)

/-- The road ids assigned over a sequence of storage calls, in order. -/
def roadIdTrace : List StoreOp → MemStorage → List Nat
  | [], _ => []
  | .addRoad ins :: ops, s =>
    (addRoad ins s).1.id :: roadIdTrace ops (applyOp (.addRoad ins) s)
  | op :: ops, s => roadIdTrace ops (applyOp op s)

/-- The cache-entry ids assigned over a sequence of storage calls, in
order. -/
def cacheIdTrace : List StoreOp → MemStorage → List Nat
  | [], _ => []
  | .setCache ins :: ops, s =>
    (setCache ins s).1.id :: cacheIdTrace ops (applyOp (.setCache ins) s)
  | op :: ops, s => cacheIdTrace ops (applyOp op s)

/-! ## Helper lemmas -/

/-- Conversion of the scientific literal 10.94 to an explicit rational. -/
theorem ratLit_10_94 : (10.94 : Rat) = mkRat 1094 100 := by
  rw [← Rat.ofScientific_ofNat_ofNat, Rat.ofScientific_true_def]; norm_num

/-- Conversion of the scientific literal 106.82 to an explicit rational. -/
theorem ratLit_106_82 : (106.82 : Rat) = mkRat 10682 100 := by
  rw [← Rat.ofScientific_ofNat_ofNat, Rat.ofScientific_true_def]; norm_num

/-- Conversion of the scientific literal 10.98 to an explicit rational. -/
theorem ratLit_10_98 : (10.98 : Rat) = mkRat 1098 100 := by
  rw [← Rat.ofScientific_ofNat_ofNat, Rat.ofScientific_true_def]; norm_num

/-- Conversion of the scientific literal 106.88 to an explicit rational. -/
theorem ratLit_106_88 : (106.88 : Rat) = mkRat 10688 100 := by
  rw [← Rat.ofScientific_ofNat_ofNat, Rat.ofScientific_true_def]; norm_num

/-- The bounds cache key of the reference scenario. -/
theorem landmarksKey_scenario :
    landmarksKey 10.94 106.82 10.98 106.88
      = "landmarks:10.94,106.82,10.98,106.88" := by
  rw [landmarksKey, ratLit_10_94, ratLit_106_82, ratLit_10_98,
    ratLit_106_88]
  decide

/-- Looking up the key just written by `mapSetCache` finds the new
entry. -/
theorem cacheLookup_mapSetCache_self (c : Cache) (l : List Cache) :
    cacheLookup c.key (mapSetCache c l) = some c := by
  induction l with
  | nil => simp [mapSetCache, cacheLookup]
  | cons x xs ih =>
    by_cases h : x.key = c.key
    · simp [mapSetCache, h, cacheLookup]
    · simp [mapSetCache, h, cacheLookup, ih]

/-- After deleting a key, looking it up misses. -/
theorem cacheLookup_filter_self (k : String) (l : List Cache) :
    cacheLookup k (l.filter (fun c => !(c.key == k))) = none := by
  induction l with
  | nil => simp [cacheLookup]
  | cons x xs ih =>
    by_cases h : x.key = k
    · simp [List.filter_cons, h, ih]
    · simp [List.filter_cons, h, cacheLookup, ih]

/-- `mapSetLandmark` with an id absent from the map appends. -/
theorem mapSetLandmark_fresh (l : Landmark) (L : List Landmark)
    (h : ∀ x ∈ L, x.id ≠ l.id) : mapSetLandmark l L = L ++ [l] := by
  induction L with
  | nil => rfl
  | cons x xs ih =>
    have hx : x.id ≠ l.id := h x (by simp)
    simp [mapSetLandmark, hx, ih (fun y hy => h y (by simp [hy]))]

/-- `mapSetRoad` with an id absent from the map appends. -/
theorem mapSetRoad_fresh (r : Road) (L : List Road)
    (h : ∀ x ∈ L, x.id ≠ r.id) : mapSetRoad r L = L ++ [r] := by
  induction L with
  | nil => rfl
  | cons x xs ih =>
    have hx : x.id ≠ r.id := h x (by simp)
    simp [mapSetRoad, hx, ih (fun y hy => h y (by simp [hy]))]

/-- `mapSetCache` with a key absent from the map appends. -/
theorem mapSetCache_fresh (c : Cache) (L : List Cache)
    (h : ∀ x ∈ L, x.key ≠ c.key) : mapSetCache c L = L ++ [c] := by
  induction L with
  | nil => rfl
  | cons x xs ih =>
    have hx : x.key ≠ c.key := h x (by simp)
    simp [mapSetCache, hx, ih (fun y hy => h y (by simp [hy]))]

/-- The storage loop of the landmarks handler only touches the landmark
map and the landmark counter. -/
theorem addAllLandmarks_frame (ls : List InsertLandmark) :
    ∀ s : MemStorage,
      (addAllLandmarks ls s).roads = s.roads ∧
      (addAllLandmarks ls s).cache = s.cache ∧
      (addAllLandmarks ls s).roadsCurrentId = s.roadsCurrentId ∧
      (addAllLandmarks ls s).cacheCurrentId = s.cacheCurrentId := by
  induction ls with
  | nil => intro s; simp [addAllLandmarks]
  | cons l rest ih =>
    intro s
    have h := ih (addLandmark l s).2
    simpa [addAllLandmarks, addLandmark, List.foldl] using h

/-- The storage loop of the roads handler only touches the road map and
the road counter. -/
theorem addAllRoads_frame (rs : List InsertRoad) :
    ∀ s : MemStorage,
      (addAllRoads rs s).landmarks = s.landmarks ∧
      (addAllRoads rs s).cache = s.cache ∧
      (addAllRoads rs s).landmarksCurrentId = s.landmarksCurrentId ∧
      (addAllRoads rs s).cacheCurrentId = s.cacheCurrentId := by
  induction rs with
  | nil => intro s; simp [addAllRoads]
  | cons r rest ih =>
    intro s
    have h := ih (addRoad r s).2
    simpa [addAllRoads, addRoad, List.foldl] using h

/-- Effect of the landmark storage loop on a state whose landmark ids are
all below the counter: the fetched records are appended in order with the
consecutive ids starting at the counter. -/
theorem addAllLandmarks_spec (ls : List InsertLandmark) :
    ∀ s : MemStorage, (∀ l ∈ s.landmarks, l.id < s.landmarksCurrentId) →
      (addAllLandmarks ls s).landmarks.map (fun l => l.id)
          = s.landmarks.map (fun l => l.id)
            ++ List.range' s.landmarksCurrentId ls.length ∧
      (addAllLandmarks ls s).landmarks.map (fun l => l.toInsertLandmark)
          = s.landmarks.map (fun l => l.toInsertLandmark) ++ ls ∧
      (addAllLandmarks ls s).landmarksCurrentId
          = s.landmarksCurrentId + ls.length := by
  induction ls with
  | nil => intro s _; simp [addAllLandmarks]
  | cons l rest ih =>
    intro s hs
    have hfresh : ∀ x ∈ s.landmarks, x.id ≠ s.landmarksCurrentId :=
      fun x hx => Nat.ne_of_lt (hs x hx)
    have hset : mapSetLandmark ⟨l, s.landmarksCurrentId⟩ s.landmarks
        = s.landmarks ++ [⟨l, s.landmarksCurrentId⟩] :=
      mapSetLandmark_fresh _ _ hfresh
    have hs' : ∀ x ∈ (addLandmark l s).2.landmarks,
        x.id < (addLandmark l s).2.landmarksCurrentId := by
      intro x hx
      simp only [addLandmark, hset, List.mem_append, List.mem_singleton]
        at hx
      rcases hx with hx | hx
      · exact Nat.lt_succ_of_lt (hs x hx)
      · subst hx; exact Nat.lt_succ_self _
    have h := ih (addLandmark l s).2 hs'
    rcases h with ⟨h1, h2, h3⟩
    refine ⟨?_, ?_, ?_⟩
    · calc (addAllLandmarks (l :: rest) s).landmarks.map (fun l => l.id)
          = (addAllLandmarks rest (addLandmark l s).2).landmarks.map
              (fun l => l.id) := rfl
        _ = _ := by
            rw [h1]
            simp [addLandmark, hset, List.range'_succ]
    · calc (addAllLandmarks (l :: rest) s).landmarks.map
            (fun l => l.toInsertLandmark)
          = (addAllLandmarks rest (addLandmark l s).2).landmarks.map
              (fun l => l.toInsertLandmark) := rfl
        _ = _ := by rw [h2]; simp [addLandmark, hset]
    · calc (addAllLandmarks (l :: rest) s).landmarksCurrentId
          = (addAllLandmarks rest (addLandmark l s).2).landmarksCurrentId
            := rfl
        _ = _ := by rw [h3]; simp [addLandmark]; omega

/-- A cache read that misses leaves the landmark and road state and all
counters untouched, removes at most the expired entry it read, and leaves
no entry under the key. -/
theorem getCache_miss (k : String) (now : Int) (s s1 : MemStorage)
    (h : getCache k now s = (none, s1)) :
    cacheLookup k s1.cache = none ∧ (∀ e ∈ s1.cache, e ∈ s.cache) ∧
    s1.landmarks = s.landmarks ∧ s1.roads = s.roads ∧
    s1.landmarksCurrentId = s.landmarksCurrentId ∧
    s1.roadsCurrentId = s.roadsCurrentId ∧
    s1.cacheCurrentId = s.cacheCurrentId := by
  rcases hl : cacheLookup k s.cache with _ | c
  · simp only [getCache, hl] at h
    injection h with h1 h2
    subst h2
    exact ⟨hl, fun e he => he, rfl, rfl, rfl, rfl, rfl⟩
  · simp only [getCache, hl] at h
    by_cases he : c.expiresAt < now
    · rw [if_pos he] at h
      injection h with h1 h2
      subst h2
      refine ⟨cacheLookup_filter_self k s.cache, ?_, rfl, rfl, rfl, rfl,
        rfl⟩
      intro e hee
      exact (List.mem_filter.mp hee).1
    · rw [if_neg he] at h
      injection h with h1 h2
      cases h1

/-- A cache read never changes the landmark or road state nor any
counter. -/
theorem getCache_snd_frame (k : String) (now : Int) (s : MemStorage) :
    ((getCache k now s).2).landmarks = s.landmarks ∧
    ((getCache k now s).2).roads = s.roads ∧
    ((getCache k now s).2).landmarksCurrentId = s.landmarksCurrentId ∧
    ((getCache k now s).2).roadsCurrentId = s.roadsCurrentId ∧
    ((getCache k now s).2).cacheCurrentId = s.cacheCurrentId := by
  rcases hl : cacheLookup k s.cache with _ | c
  · simp [getCache, hl]
  · by_cases he : c.expiresAt < now
    · simp [getCache, hl, he, invalidateCache]
    · simp [getCache, hl, he]

/-- Landmark ids assigned over any operation sequence are bounded below by
the current counter and strictly increasing. -/
theorem landmarkIdTrace_spec (ops : List StoreOp) :
    ∀ s : MemStorage,
      (∀ i ∈ landmarkIdTrace ops s, s.landmarksCurrentId ≤ i) ∧
      (landmarkIdTrace ops s).Pairwise (· < ·) := by
  induction ops with
  | nil => intro s; simp [landmarkIdTrace]
  | cons op rest ih =>
    intro s
    cases op with
    | addLandmark ins =>
      have h := ih (applyOp (.addLandmark ins) s)
      have hc : (applyOp (.addLandmark ins) s).landmarksCurrentId
          = s.landmarksCurrentId + 1 := rfl
      rw [hc] at h
      have hid : (addLandmark ins s).1.id = s.landmarksCurrentId := rfl
      have htr : landmarkIdTrace (.addLandmark ins :: rest) s
          = (addLandmark ins s).1.id ::
            landmarkIdTrace rest (applyOp (.addLandmark ins) s) := rfl
      rw [htr, hid]
      constructor
      · intro i hi
        rcases List.mem_cons.mp hi with hi | hi
        · omega
        · have := h.1 i hi; omega
      · refine List.Pairwise.cons ?_ h.2
        intro b hb
        have := h.1 b hb; omega
    | addRoad ins =>
      have h := ih (applyOp (.addRoad ins) s)
      have hc : (applyOp (.addRoad ins) s).landmarksCurrentId
          = s.landmarksCurrentId := rfl
      rw [hc] at h
      exact h
    | setCache ins =>
      have h := ih (applyOp (.setCache ins) s)
      have hc : (applyOp (.setCache ins) s).landmarksCurrentId
          = s.landmarksCurrentId := rfl
      rw [hc] at h
      exact h
    | invalidateCache k =>
      have h := ih (applyOp (.invalidateCache k) s)
      have hc : (applyOp (.invalidateCache k) s).landmarksCurrentId
          = s.landmarksCurrentId := rfl
      rw [hc] at h
      exact h
    | getCache k now =>
      have h := ih (applyOp (.getCache k now) s)
      have hc : (applyOp (.getCache k now) s).landmarksCurrentId
          = s.landmarksCurrentId := (getCache_snd_frame k now s).2.2.1
      rw [hc] at h
      exact h
    | cleanExpiredCache now =>
      have h := ih (applyOp (.cleanExpiredCache now) s)
      have hc : (applyOp (.cleanExpiredCache now) s).landmarksCurrentId
          = s.landmarksCurrentId := rfl
      rw [hc] at h
      exact h

/-- Road ids assigned over any operation sequence are bounded below by
the current counter and strictly increasing. -/
theorem roadIdTrace_spec (ops : List StoreOp) :
    ∀ s : MemStorage,
      (∀ i ∈ roadIdTrace ops s, s.roadsCurrentId ≤ i) ∧
      (roadIdTrace ops s).Pairwise (· < ·) := by
  induction ops with
  | nil => intro s; simp [roadIdTrace]
  | cons op rest ih =>
    intro s
    cases op with
    | addRoad ins =>
      have h := ih (applyOp (.addRoad ins) s)
      have hc : (applyOp (.addRoad ins) s).roadsCurrentId
          = s.roadsCurrentId + 1 := rfl
      rw [hc] at h
      have hid : (addRoad ins s).1.id = s.roadsCurrentId := rfl
      have htr : roadIdTrace (.addRoad ins :: rest) s
          = (addRoad ins s).1.id ::
            roadIdTrace rest (applyOp (.addRoad ins) s) := rfl
      rw [htr, hid]
      constructor
      · intro i hi
        rcases List.mem_cons.mp hi with hi | hi
        · omega
        · have := h.1 i hi; omega
      · refine List.Pairwise.cons ?_ h.2
        intro b hb
        have := h.1 b hb; omega
    | addLandmark ins =>
      have h := ih (applyOp (.addLandmark ins) s)
      have hc : (applyOp (.addLandmark ins) s).roadsCurrentId
          = s.roadsCurrentId := rfl
      rw [hc] at h
      exact h
    | setCache ins =>
      have h := ih (applyOp (.setCache ins) s)
      have hc : (applyOp (.setCache ins) s).roadsCurrentId
          = s.roadsCurrentId := rfl
      rw [hc] at h
      exact h
    | invalidateCache k =>
      have h := ih (applyOp (.invalidateCache k) s)
      have hc : (applyOp (.invalidateCache k) s).roadsCurrentId
          = s.roadsCurrentId := rfl
      rw [hc] at h
      exact h
    | getCache k now =>
      have h := ih (applyOp (.getCache k now) s)
      have hc : (applyOp (.getCache k now) s).roadsCurrentId
          = s.roadsCurrentId := (getCache_snd_frame k now s).2.2.2.1
      rw [hc] at h
      exact h
    | cleanExpiredCache now =>
      have h := ih (applyOp (.cleanExpiredCache now) s)
      have hc : (applyOp (.cleanExpiredCache now) s).roadsCurrentId
          = s.roadsCurrentId := rfl
      rw [hc] at h
      exact h

/-- Cache-entry ids assigned over any operation sequence are bounded below
by the current counter and strictly increasing. -/
theorem cacheIdTrace_spec (ops : List StoreOp) :
    ∀ s : MemStorage,
      (∀ i ∈ cacheIdTrace ops s, s.cacheCurrentId ≤ i) ∧
      (cacheIdTrace ops s).Pairwise (· < ·) := by
  induction ops with
  | nil => intro s; simp [cacheIdTrace]
  | cons op rest ih =>
    intro s
    cases op with
    | setCache ins =>
      have h := ih (applyOp (.setCache ins) s)
      have hc : (applyOp (.setCache ins) s).cacheCurrentId
          = s.cacheCurrentId + 1 := rfl
      rw [hc] at h
      have hid : (setCache ins s).1.id = s.cacheCurrentId := rfl
      have htr : cacheIdTrace (.setCache ins :: rest) s
          = (setCache ins s).1.id ::
            cacheIdTrace rest (applyOp (.setCache ins) s) := rfl
      rw [htr, hid]
      constructor
      · intro i hi
        rcases List.mem_cons.mp hi with hi | hi
        · omega
        · have := h.1 i hi; omega
      · refine List.Pairwise.cons ?_ h.2
        intro b hb
        have := h.1 b hb; omega
    | addLandmark ins =>
      have h := ih (applyOp (.addLandmark ins) s)
      have hc : (applyOp (.addLandmark ins) s).cacheCurrentId
          = s.cacheCurrentId := rfl
      rw [hc] at h
      exact h
    | addRoad ins =>
      have h := ih (applyOp (.addRoad ins) s)
      have hc : (applyOp (.addRoad ins) s).cacheCurrentId
          = s.cacheCurrentId := rfl
      rw [hc] at h
      exact h
    | invalidateCache k =>
      have h := ih (applyOp (.invalidateCache k) s)
      have hc : (applyOp (.invalidateCache k) s).cacheCurrentId
          = s.cacheCurrentId := rfl
      rw [hc] at h
      exact h
    | getCache k now =>
      have h := ih (applyOp (.getCache k now) s)
      have hc : (applyOp (.getCache k now) s).cacheCurrentId
          = s.cacheCurrentId := (getCache_snd_frame k now s).2.2.2.2
      rw [hc] at h
      exact h
    | cleanExpiredCache now =>
      have h := ih (applyOp (.cleanExpiredCache now) s)
      have hc : (applyOp (.cleanExpiredCache now) s).cacheCurrentId
          = s.cacheCurrentId := rfl
      rw [hc] at h
      exact h

/-! ## Claim theorems -/

/-- C1, counterexample to the claim as stated: with an entry set to expire
at t = 5, a read at now = 5 (so now ≥ t) still returns the entry, because
the source treats an entry as expired only when expiresAt < now. The claim
says the read must be a miss once now ≥ t. -/
theorem c1_counterexample :
    (5 : Int) ≥ 5 ∧
    (getCache "k" 5 (setCache
        { key := "k", data := .searchList [], expiresAt := 5 }
        initialStorage).2).1
      = some ⟨{ key := "k", data := .searchList [], expiresAt := 5 }, 1⟩ :=
  ⟨by decide, rfl⟩

/-- C1, amended: after set(k, d, t), a read at any now ≤ t returns the
entry with data d and leaves the state unchanged; once now > t the read
misses and removes the entry, even without an intervening sweep. -/
theorem c1_cache_expiry (k : String) (d : CacheData) (t now : Int)
    (s : MemStorage) :
    (now ≤ t →
      getCache k now
          (setCache { key := k, data := d, expiresAt := t } s).2
        = (some ⟨{ key := k, data := d, expiresAt := t },
              s.cacheCurrentId⟩,
           (setCache { key := k, data := d, expiresAt := t } s).2)) ∧
    (t < now →
      (getCache k now
          (setCache { key := k, data := d, expiresAt := t } s).2).1
        = none ∧
      cacheLookup k ((getCache k now
          (setCache { key := k, data := d, expiresAt := t }
            s).2).2).cache = none) := by
  have hl : cacheLookup k
      (setCache { key := k, data := d, expiresAt := t } s).2.cache
      = some ⟨{ key := k, data := d, expiresAt := t },
          s.cacheCurrentId⟩ :=
    cacheLookup_mapSetCache_self
      ⟨{ key := k, data := d, expiresAt := t }, s.cacheCurrentId⟩ s.cache
  constructor
  · intro hle
    have hcond : ¬ ((⟨{ key := k, data := d, expiresAt := t },
        s.cacheCurrentId⟩ : Cache).expiresAt < now) := by
      show ¬ (t < now); omega
    simp only [getCache, hl]
    rw [if_neg hcond]
  · intro hlt
    have hcond : (⟨{ key := k, data := d, expiresAt := t },
        s.cacheCurrentId⟩ : Cache).expiresAt < now := hlt
    simp only [getCache, hl]
    rw [if_pos hcond]
    exact ⟨rfl, cacheLookup_filter_self k _⟩

/-- C1, witness: the amended theorem at k = "k", t = 10, with reads at
now = 3 (hit) and now = 11 (miss). -/
theorem c1_cache_expiry_witness :
    getCache "k" 3 (setCache
        { key := "k", data := .searchList [], expiresAt := 10 }
        initialStorage).2
      = (some ⟨{ key := "k", data := .searchList [], expiresAt := 10 },
            1⟩,
         (setCache { key := "k", data := .searchList [], expiresAt := 10 }
            initialStorage).2) ∧
    (getCache "k" 11 (setCache
        { key := "k", data := .searchList [], expiresAt := 10 }
        initialStorage).2).1 = none :=
  ⟨(c1_cache_expiry "k" (.searchList []) 10 3 initialStorage).1
      (by decide),
   ((c1_cache_expiry "k" (.searchList []) 10 11 initialStorage).2
      (by decide)).1⟩

/-- C2, counterexample to the claim as stated: were the road fetch the
claimed fallback chain, a non-empty primary-provider result would be
returned as is; the fetch the code performs returns the sixteen fixture
roads regardless, so the two disagree. -/
theorem c2_counterexample :
    roadFetchChainSpec
        [{ name := none, coordinates := [], area := "buu long" }] []
      ≠ fetchBuuLongRoads := by
  intro h
  have h1 : (roadFetchChainSpec
      [{ name := none, coordinates := [], area := "buu long" }]
      []).length = 1 := rfl
  have h2 : fetchBuuLongRoads.length = 16 := rfl
  rw [h, h2] at h1
  exact absurd h1 (by decide)

/-- C2, amended: a road lookup that misses both cache and store obtains
its data from `fetchBuuLongRoads`, which returns the local fixture dataset
directly; no external provider is consulted, and the fixture list is
stored and cached under the roads key. -/
theorem c2_roads_fixture (now : Int) (s : MemStorage)
    (hmiss : (getCache "roads:buu-long" now s).1 = none)
    (hempty : getRoadsByArea "buu long"
      ((getCache "roads:buu-long" now s).2) = []) :
    (roadsHandler now none s).1
      = .ok (.insertRoadList fetchBuuLongRoads) ∧
    cacheLookup "roads:buu-long"
        ((roadsHandler now none s).2).cache
      = some ⟨{ key := "roads:buu-long",
                data := .insertRoadList fetchBuuLongRoads,
                expiresAt := now + 3600 }, s.cacheCurrentId⟩ := by
  rcases hget : getCache "roads:buu-long" now s with ⟨o, s1⟩
  cases o with
  | some c =>
    rw [hget] at hmiss
    exact absurd hmiss (by simp)
  | none =>
    have hempty1 : getRoadsByArea "buu long" s1 = [] := by
      rw [hget] at hempty; exact hempty
    have hid : (addAllRoads fetchBuuLongRoads s1).cacheCurrentId
        = s.cacheCurrentId := by
      rw [(addAllRoads_frame fetchBuuLongRoads s1).2.2.2]
      have hc := (getCache_snd_frame "roads:buu-long" now s).2.2.2.2
      rw [hget] at hc
      exact hc
    simp only [roadsHandler, hget, hempty1, List.isEmpty_nil, if_true]
    refine ⟨rfl, ?_⟩
    simp only [roadsFetchFinish, setCache]
    rw [← hid]
    exact cacheLookup_mapSetCache_self
      ⟨{ key := "roads:buu-long",
         data := .insertRoadList fetchBuuLongRoads,
         expiresAt := now + 3600 },
       (addAllRoads fetchBuuLongRoads s1).cacheCurrentId⟩
      (addAllRoads fetchBuuLongRoads s1).cache

/-- C2, witness: the amended theorem at the empty initial storage, where
both miss hypotheses hold. -/
theorem c2_roads_fixture_witness :
    (roadsHandler 0 none initialStorage).1
      = .ok (.insertRoadList fetchBuuLongRoads) ∧
    cacheLookup "roads:buu-long"
        ((roadsHandler 0 none initialStorage).2).cache
      = some ⟨{ key := "roads:buu-long",
                data := .insertRoadList fetchBuuLongRoads,
                expiresAt := 0 + 3600 }, 1⟩ :=
  c2_roads_fixture 0 initialStorage rfl rfl

/-- C3: a landmark is in the bounds query result exactly when it is in the
store and its latitude and longitude lie within the inclusive ranges of
the box, and when no landmark matches the result is the empty list. -/
theorem c3_bounds_filter (s : MemStorage) (sw ne : Rat × Rat)
    (l : Landmark) :
    (l ∈ getLandmarksByBounds (sw, ne) s ↔
      l ∈ s.landmarks ∧
        (sw.1 ≤ l.coordinates.1 ∧ l.coordinates.1 ≤ ne.1 ∧
         sw.2 ≤ l.coordinates.2 ∧ l.coordinates.2 ≤ ne.2)) ∧
    ((∀ x ∈ s.landmarks,
        ¬ (sw.1 ≤ x.coordinates.1 ∧ x.coordinates.1 ≤ ne.1 ∧
           sw.2 ≤ x.coordinates.2 ∧ x.coordinates.2 ≤ ne.2)) →
      getLandmarksByBounds (sw, ne) s = []) := by
  constructor
  · simp [getLandmarksByBounds, List.mem_filter]
  · intro h
    simp only [getLandmarksByBounds]
    refine List.filter_eq_nil_iff.mpr ?_
    intro a ha
    simp only [decide_eq_true_eq]
    exact h a ha

/-- C3, witness: a store with a single landmark at (5, 5) and the box
from (0, 0) to (1, 1), which contains no landmark. -/
theorem c3_bounds_filter_witness :
    getLandmarksByBounds ((0, 0), (1, 1))
      { landmarks := [⟨⟨"A", 1, "e", none, (5, 5), none, "u"⟩, 1⟩],
        roads := [], cache := [], landmarksCurrentId := 2,
        roadsCurrentId := 1, cacheCurrentId := 1 } = [] :=
  (c3_bounds_filter
    { landmarks := [⟨⟨"A", 1, "e", none, (5, 5), none, "u"⟩, 1⟩],
      roads := [], cache := [], landmarksCurrentId := 2,
      roadsCurrentId := 1, cacheCurrentId := 1 }
    (0, 0) (1, 1) ⟨⟨"A", 1, "e", none, (5, 5), none, "u"⟩, 1⟩).2
    (by decide)

/-- C4, counterexample to the claim as stated: the queries " hanoi" and
"hanoi" differ only in leading whitespace, yet the computed cache keys
differ, because the source lowercases the query without trimming it. -/
theorem c4_counterexample :
    (" hanoi" : String) = " " ++ "hanoi" ∧
    searchCacheKey " hanoi" ≠ searchCacheKey "hanoi" := by
  constructor
  · rfl
  · decide

/-- C4, amended: the search cache key encodes the lowercased (but not
trimmed) query, so two queries with the same lowercased form share a
key. -/
theorem c4_search_key (q1 q2 : String)
    (h : jsToLowerCase q1 = jsToLowerCase q2) :
    searchCacheKey q1 = "search:" ++ jsToLowerCase q1 ∧
    searchCacheKey q1 = searchCacheKey q2 := by
  refine ⟨rfl, ?_⟩
  simp only [searchCacheKey, h]

/-- C4, witness: the amended theorem at "HaNoi" and "hanoi". -/
theorem c4_search_key_witness :
    searchCacheKey "HaNoi" = "search:" ++ jsToLowerCase "HaNoi" ∧
    searchCacheKey "HaNoi" = searchCacheKey "hanoi" :=
  c4_search_key "HaNoi" "hanoi" (by decide)

/-- C5: the sweep is idempotent at a fixed time, and an entry survives a
sweep exactly when it was present and its expiry has not passed. -/
theorem c5_sweep_idempotent (now : Int) (s : MemStorage) (e : Cache) :
    cleanExpiredCache now (cleanExpiredCache now s)
      = cleanExpiredCache now s ∧
    (e ∈ (cleanExpiredCache now s).cache ↔
      e ∈ s.cache ∧ ¬ e.expiresAt < now) := by
  constructor
  · simp [cleanExpiredCache, List.filter_filter]
  · simp [cleanExpiredCache, List.mem_filter]

/-- C6: the reference bounds query against an empty store and cache takes
the fetch path, returns the fetched list, stores each fetched landmark
with consecutive fresh ids starting at 1, and caches the fetched list
under the literal bounds key with expiry now + 3600. -/
theorem c6_scenario (now : Int) (fetched : List InsertLandmark) :
    (landmarksHandler 10.94 106.82 10.98 106.88 now fetched none
        initialStorage).1 = .ok (.insertLandmarkList fetched) ∧
    ((landmarksHandler 10.94 106.82 10.98 106.88 now fetched none
        initialStorage).2).cache
      = [⟨{ key := "landmarks:10.94,106.82,10.98,106.88",
            data := .insertLandmarkList fetched,
            expiresAt := now + 3600 }, 1⟩] ∧
    ((landmarksHandler 10.94 106.82 10.98 106.88 now fetched none
        initialStorage).2).landmarks.map (fun l => l.id)
      = List.range' 1 fetched.length ∧
    ((landmarksHandler 10.94 106.82 10.98 106.88 now fetched none
        initialStorage).2).landmarks.map (fun l => l.toInsertLandmark)
      = fetched := by
  have hrun : landmarksHandler 10.94 106.82 10.98 106.88 now fetched none
      initialStorage
      = landmarksFetchFinish (landmarksKey 10.94 106.82 10.98 106.88) now
          fetched initialStorage := rfl
  have hframe := addAllLandmarks_frame fetched initialStorage
  have hspec := addAllLandmarks_spec fetched initialStorage
    (by simp [initialStorage])
  rw [hrun]
  refine ⟨rfl, ?_, ?_, ?_⟩
  · simp only [landmarksFetchFinish, setCache]
    rw [hframe.2.1, hframe.2.2.2, landmarksKey_scenario]
    rfl
  · have hl : ((landmarksFetchFinish
        (landmarksKey 10.94 106.82 10.98 106.88) now fetched
        initialStorage).2).landmarks
        = (addAllLandmarks fetched initialStorage).landmarks := rfl
    rw [hl, hspec.1]
    simp [initialStorage]
  · have hl : ((landmarksFetchFinish
        (landmarksKey 10.94 106.82 10.98 106.88) now fetched
        initialStorage).2).landmarks
        = (addAllLandmarks fetched initialStorage).landmarks := rfl
    rw [hl, hspec.2.1]
    simp [initialStorage]

/-- C7: the landmark search fetch has a single external stage and no
fixture fallback: a thrown error, a malformed response or an empty item
list each yield the empty list, and a successful response yields exactly
the provider items (the first five for text search) transformed, nothing
else; the same holds for the geosearch fetch. -/
theorem c7_search_no_fallback (items : List RawSearchItem)
    (gitems : List RawGeoItem) :
    searchWikipedia (.error ()) = [] ∧
    searchWikipedia (.ok none) = [] ∧
    searchWikipedia (.ok (some [])) = [] ∧
    searchWikipedia (.ok (some items))
      = (items.take 5).map searchItemToResult ∧
    fetchWikipediaLandmarks (.error ()) = [] ∧
    fetchWikipediaLandmarks (.ok none) = [] ∧
    fetchWikipediaLandmarks (.ok (some [])) = [] ∧
    fetchWikipediaLandmarks (.ok (some gitems))
      = gitems.map geoItemToLandmark :=
  ⟨rfl, rfl, rfl, rfl, rfl, rfl, rfl, rfl⟩

/-- C8: over any sequence of storage operations from the initial state,
the ids assigned within each entity kind are strictly increasing in
allocation order (each insert gets an id greater than every earlier id of
that kind) and therefore never reused. -/
theorem c8_monotonic_ids (ops : List StoreOp) :
    (landmarkIdTrace ops initialStorage).Pairwise (· < ·) ∧
    (landmarkIdTrace ops initialStorage).Nodup ∧
    (roadIdTrace ops initialStorage).Pairwise (· < ·) ∧
    (roadIdTrace ops initialStorage).Nodup ∧
    (cacheIdTrace ops initialStorage).Pairwise (· < ·) ∧
    (cacheIdTrace ops initialStorage).Nodup := by
  have h1 := (landmarkIdTrace_spec ops initialStorage).2
  have h2 := (roadIdTrace_spec ops initialStorage).2
  have h3 := (cacheIdTrace_spec ops initialStorage).2
  exact ⟨h1, h1.imp (fun hab => Nat.ne_of_lt hab),
    h2, h2.imp (fun hab => Nat.ne_of_lt hab),
    h3, h3.imp (fun hab => Nat.ne_of_lt hab)⟩

/-- Failure analysis of the landmarks handler: a generic-failure response
carries the fixed message, leaves no entry under the request key, and
caches nothing new. -/
theorem landmarksHandler_failure (south west north east : Rat)
    (now : Int) (fetched : List InsertLandmark)
    (failAt : Option FailPoint) (s : MemStorage) (msg : String)
    (h : (landmarksHandler south west north east now fetched failAt s).1
        = .serverError msg) :
    msg = "Failed to fetch landmarks" ∧
    cacheLookup (landmarksKey south west north east)
        ((landmarksHandler south west north east now fetched failAt
          s).2).cache = none ∧
    ∀ e ∈ ((landmarksHandler south west north east now fetched failAt
        s).2).cache, e ∈ s.cache := by
  rcases hget : getCache (landmarksKey south west north east) now s
    with ⟨o, s1⟩
  have hmiss := getCache_miss (landmarksKey south west north east) now s
  cases o with
  | some c =>
    simp only [landmarksHandler, hget] at h
    exact absurd h (by simp)
  | none =>
    have hm := hmiss s1 hget
    simp only [landmarksHandler, hget] at h ⊢
    cases hst : (getLandmarksByBounds ((south, west), (north, east))
        s1).isEmpty with
    | true =>
      simp only [hst, if_true] at h ⊢
      cases failAt with
      | none =>
        exact absurd h (by simp [landmarksFetchFinish])
      | some fp =>
        cases fp with
        | fetch =>
          simp only at h ⊢
          refine ⟨by simpa using h.symm, hm.1, hm.2.1⟩
        | add i =>
          by_cases hi : i < fetched.length
          · simp only [hi, if_pos] at h ⊢
            have hfr := addAllLandmarks_frame (fetched.take i) s1
            refine ⟨by simpa using h.symm, ?_, ?_⟩
            · rw [hfr.2.1]; exact hm.1
            · intro e he; rw [hfr.2.1] at he; exact hm.2.1 e he
          · simp only [hi, if_neg] at h ⊢
            exact absurd h (by simp [landmarksFetchFinish])
        | cacheWrite =>
          simp only at h ⊢
          have hfr := addAllLandmarks_frame fetched s1
          refine ⟨by simpa using h.symm, ?_, ?_⟩
          · rw [hfr.2.1]; exact hm.1
          · intro e he; rw [hfr.2.1] at he; exact hm.2.1 e he
    | false =>
      simp only [hst, if_false] at h ⊢
      cases failAt with
      | none => exact absurd h (by simp)
      | some fp =>
        cases fp with
        | fetch => exact absurd h (by simp)
        | add i => exact absurd h (by simp)
        | cacheWrite =>
          simp only at h ⊢
          refine ⟨by simpa using h.symm, hm.1, hm.2.1⟩

/-- Failure analysis of the roads handler: a generic-failure response
carries the fixed message, leaves no entry under the roads key, and
caches nothing new. -/
theorem roadsHandler_failure (now : Int) (failAt : Option FailPoint)
    (s : MemStorage) (msg : String)
    (h : (roadsHandler now failAt s).1 = .serverError msg) :
    msg = "Failed to fetch Buu Long roads" ∧
    cacheLookup "roads:buu-long"
        ((roadsHandler now failAt s).2).cache = none ∧
    ∀ e ∈ ((roadsHandler now failAt s).2).cache, e ∈ s.cache := by
  rcases hget : getCache "roads:buu-long" now s with ⟨o, s1⟩
  have hmiss := getCache_miss "roads:buu-long" now s
  cases o with
  | some c =>
    simp only [roadsHandler, hget] at h
    exact absurd h (by simp)
  | none =>
    have hm := hmiss s1 hget
    simp only [roadsHandler, hget] at h ⊢
    cases hst : (getRoadsByArea "buu long" s1).isEmpty with
    | true =>
      simp only [hst, if_true] at h ⊢
      cases failAt with
      | none => exact absurd h (by simp [roadsFetchFinish])
      | some fp =>
        cases fp with
        | fetch =>
          simp only at h ⊢
          refine ⟨by simpa using h.symm, hm.1, hm.2.1⟩
        | add i =>
          by_cases hi : i < fetchBuuLongRoads.length
          · simp only [hi, if_pos] at h ⊢
            have hfr := addAllRoads_frame (fetchBuuLongRoads.take i) s1
            refine ⟨by simpa using h.symm, ?_, ?_⟩
            · rw [hfr.2.1]; exact hm.1
            · intro e he; rw [hfr.2.1] at he; exact hm.2.1 e he
          · simp only [hi, if_neg] at h ⊢
            exact absurd h (by simp [roadsFetchFinish])
        | cacheWrite =>
          simp only at h ⊢
          have hfr := addAllRoads_frame fetchBuuLongRoads s1
          refine ⟨by simpa using h.symm, ?_, ?_⟩
          · rw [hfr.2.1]; exact hm.1
          · intro e he; rw [hfr.2.1] at he; exact hm.2.1 e he
    | false =>
      simp only [hst, if_false] at h ⊢
      cases failAt with
      | none => exact absurd h (by simp)
      | some fp =>
        cases fp with
        | fetch => exact absurd h (by simp)
        | add i => exact absurd h (by simp)
        | cacheWrite =>
          simp only at h ⊢
          refine ⟨by simpa using h.symm, hm.1, hm.2.1⟩

/-- Failure analysis of the search handler: a generic-failure response
carries the fixed message, leaves no entry under the search key, and
caches nothing new. -/
theorem searchHandler_failure (query : String) (now : Int)
    (resp : Except Unit (Option (List RawSearchItem)))
    (failAt : Option FailPoint) (s : MemStorage) (msg : String)
    (h : (searchHandler query now resp failAt s).1 = .serverError msg) :
    msg = "Failed to search landmarks" ∧
    cacheLookup (searchCacheKey query)
        ((searchHandler query now resp failAt s).2).cache = none ∧
    ∀ e ∈ ((searchHandler query now resp failAt s).2).cache,
      e ∈ s.cache := by
  by_cases hq : jsTrim query = ""
  · simp only [searchHandler] at h
    rw [if_pos hq] at h
    exact absurd h (by simp)
  · simp only [searchHandler] at h ⊢
    rw [if_neg hq] at h ⊢
    rcases hget : getCache (searchCacheKey query) now s with ⟨o, s1⟩
    have hmiss := getCache_miss (searchCacheKey query) now s
    cases o with
    | some c =>
      simp only [hget] at h
      exact absurd h (by simp)
    | none =>
      have hm := hmiss s1 hget
      simp only [hget] at h ⊢
      cases failAt with
      | none => exact absurd h (by simp)
      | some fp =>
        cases fp with
        | fetch =>
          simp only at h ⊢
          refine ⟨by simpa using h.symm, hm.1, hm.2.1⟩
        | add i => exact absurd h (by simp)
        | cacheWrite =>
          simp only at h ⊢
          refine ⟨by simpa using h.symm, hm.1, hm.2.1⟩

/-- C9: for each of the three query types (bounds landmarks, Buu Long
roads, text search), whenever the handler answers with the generic
service failure, the message is that handler's fixed one, no entry is
cached under the request key, and the cache holds no entry that was not
already present before the request (no partial write is cached). -/
theorem c9_failure_no_partial_cache (south west north east : Rat)
    (query : String) (now : Int) (fetched : List InsertLandmark)
    (resp : Except Unit (Option (List RawSearchItem)))
    (failAt : Option FailPoint) (s : MemStorage) (msg : String) :
    ((landmarksHandler south west north east now fetched failAt s).1
        = .serverError msg →
      msg = "Failed to fetch landmarks" ∧
      cacheLookup (landmarksKey south west north east)
          ((landmarksHandler south west north east now fetched failAt
            s).2).cache = none ∧
      ∀ e ∈ ((landmarksHandler south west north east now fetched failAt
          s).2).cache, e ∈ s.cache) ∧
    ((roadsHandler now failAt s).1 = .serverError msg →
      msg = "Failed to fetch Buu Long roads" ∧
      cacheLookup "roads:buu-long"
          ((roadsHandler now failAt s).2).cache = none ∧
      ∀ e ∈ ((roadsHandler now failAt s).2).cache, e ∈ s.cache) ∧
    ((searchHandler query now resp failAt s).1 = .serverError msg →
      msg = "Failed to search landmarks" ∧
      cacheLookup (searchCacheKey query)
          ((searchHandler query now resp failAt s).2).cache = none ∧
      ∀ e ∈ ((searchHandler query now resp failAt s).2).cache,
        e ∈ s.cache) :=
  ⟨fun h => landmarksHandler_failure south west north east now fetched
      failAt s msg h,
   fun h => roadsHandler_failure now failAt s msg h,
   fun h => searchHandler_failure query now resp failAt s msg h⟩

/-- C9, witness: a cache-write failure on the miss path of each of the
three handlers over the empty initial storage leaves the cache empty. -/
theorem c9_failure_witness :
    ("Failed to fetch landmarks" = "Failed to fetch landmarks" ∧
      cacheLookup (landmarksKey 1 2 3 4)
          ((landmarksHandler 1 2 3 4 0 [] (some .cacheWrite)
            initialStorage).2).cache = none ∧
      ∀ e ∈ ((landmarksHandler 1 2 3 4 0 [] (some .cacheWrite)
          initialStorage).2).cache, e ∈ initialStorage.cache) ∧
    ("Failed to fetch Buu Long roads"
        = "Failed to fetch Buu Long roads" ∧
      cacheLookup "roads:buu-long"
          ((roadsHandler 0 (some .cacheWrite)
            initialStorage).2).cache = none ∧
      ∀ e ∈ ((roadsHandler 0 (some .cacheWrite)
          initialStorage).2).cache, e ∈ initialStorage.cache) ∧
    ("Failed to search landmarks" = "Failed to search landmarks" ∧
      cacheLookup (searchCacheKey "a")
          ((searchHandler "a" 0 (.error ()) (some .cacheWrite)
            initialStorage).2).cache = none ∧
      ∀ e ∈ ((searchHandler "a" 0 (.error ()) (some .cacheWrite)
          initialStorage).2).cache, e ∈ initialStorage.cache) :=
  ⟨(c9_failure_no_partial_cache 1 2 3 4 "a" 0 [] (.error ())
      (some .cacheWrite) initialStorage
      "Failed to fetch landmarks").1 rfl,
   (c9_failure_no_partial_cache 1 2 3 4 "a" 0 [] (.error ())
      (some .cacheWrite) initialStorage
      "Failed to fetch Buu Long roads").2.1 rfl,
   (c9_failure_no_partial_cache 1 2 3 4 "a" 0 [] (.error ())
      (some .cacheWrite) initialStorage
      "Failed to search landmarks").2.2 (by decide)⟩

/-- C10: each insert returns the supplied fields unchanged together with
the fresh id, and (for a fresh identity) appends the new record, leaving
every previously stored record of every kind unchanged. -/
theorem c10_insert_frame (s : MemStorage) (insL : InsertLandmark)
    (insR : InsertRoad) (insC : InsertCache) :
    (addLandmark insL s).1.toInsertLandmark = insL ∧
    (addRoad insR s).1.toInsertRoad = insR ∧
    (setCache insC s).1.toInsertCache = insC ∧
    ((∀ l ∈ s.landmarks, l.id < s.landmarksCurrentId) →
      ((addLandmark insL s).2.landmarks
          = s.landmarks ++ [(addLandmark insL s).1] ∧
        (addLandmark insL s).2.roads = s.roads ∧
        (addLandmark insL s).2.cache = s.cache)) ∧
    ((∀ r ∈ s.roads, r.id < s.roadsCurrentId) →
      ((addRoad insR s).2.roads = s.roads ++ [(addRoad insR s).1] ∧
        (addRoad insR s).2.landmarks = s.landmarks ∧
        (addRoad insR s).2.cache = s.cache)) ∧
    ((∀ c ∈ s.cache, c.key ≠ insC.key) →
      ((setCache insC s).2.cache = s.cache ++ [(setCache insC s).1] ∧
        (setCache insC s).2.landmarks = s.landmarks ∧
        (setCache insC s).2.roads = s.roads)) := by
  refine ⟨rfl, rfl, rfl, ?_, ?_, ?_⟩
  · intro h
    exact ⟨mapSetLandmark_fresh _ _
        (fun x hx => Nat.ne_of_lt (h x hx)), rfl, rfl⟩
  · intro h
    exact ⟨mapSetRoad_fresh _ _
        (fun x hx => Nat.ne_of_lt (h x hx)), rfl, rfl⟩
  · intro h
    exact ⟨mapSetCache_fresh _ _ (fun x hx => h x hx), rfl, rfl⟩

/-- C10, witness: the three inserts applied to the empty initial
storage. -/
theorem c10_insert_frame_witness :
    (addLandmark ⟨"", 0, "", none, (0, 0), none, ""⟩
        initialStorage).2.landmarks
      = initialStorage.landmarks
        ++ [(addLandmark ⟨"", 0, "", none, (0, 0), none, ""⟩
              initialStorage).1] ∧
    (addRoad ⟨none, [], ""⟩ initialStorage).2.roads
      = initialStorage.roads
        ++ [(addRoad ⟨none, [], ""⟩ initialStorage).1] ∧
    (setCache ⟨"", .searchList [], 0⟩ initialStorage).2.cache
      = initialStorage.cache
        ++ [(setCache ⟨"", .searchList [], 0⟩ initialStorage).1] :=
  ⟨((c10_insert_frame initialStorage ⟨"", 0, "", none, (0, 0), none, ""⟩
      ⟨none, [], ""⟩ ⟨"", .searchList [], 0⟩).2.2.2.1
      (by simp [initialStorage])).1,
   ((c10_insert_frame initialStorage ⟨"", 0, "", none, (0, 0), none, ""⟩
      ⟨none, [], ""⟩ ⟨"", .searchList [], 0⟩).2.2.2.2.1
      (by simp [initialStorage])).1,
   ((c10_insert_frame initialStorage ⟨"", 0, "", none, (0, 0), none, ""⟩
      ⟨none, [], ""⟩ ⟨"", .searchList [], 0⟩).2.2.2.2.2
      (by simp [initialStorage])).1⟩
